import Mathlib

/-!
Shallow embedding of `src/main.py` (the "no-overflow" liquid-level control
loop) and verification of the specification's claims about it.

Modelling conventions:
* Python floats are modelled as rationals (`ℚ`); every reading and threshold
  appearing in the claims is exactly representable in binary floating point
  and no comparison in any claim is a tie, so the rational model agrees with
  the float computation on all inputs considered here.
* The monotonic clock is an explicit `now : ℚ` parameter.
* Python exceptions are modelled by `Option`: `none` is a raised exception.
* Mutation is modelled by explicit state passing: a Python method
  `obj.m(args)` becomes a Lean function `m args obj : Obj`.
-/

namespace NoOverflow

/-- Settings from `src/main.py` lines 19: `infoThresholdVolts = 2.00`. -/
def infoThresholdVolts : ℚ := 2.00

/-- Settings, line 23: `noticeThresholdVolts = 2.12`. -/
def noticeThresholdVolts : ℚ := 2.12

/-- Settings, line 27: `warnThresholdVolts = 2.20`. -/
def warnThresholdVolts : ℚ := 2.20

/-- Settings, line 30: `acPowerOn = False` (the relay is active-low: the
digital output value `False` energizes the AC power). -/
def acPowerOn : Bool := false

/-- Settings, line 31: `acPowerOff = not acPowerOn`. -/
def acPowerOff : Bool := !acPowerOn

/-- The eviction loop inside `Queue.append` (lines 72-76): while the length
exceeds `needed`, `popleft()` (drop the head). The Python loop pops first and
then tests `len(self) <= neededLen`; for a list whose length already exceeds
`needed` that is the same as popping while the length exceeds `needed`. -/
def shrinkTo {α : Type} (needed : Nat) : List α → List α
  | [] => []
  | x :: xs => if (x :: xs).length ≤ needed then x :: xs else shrinkTo needed xs

/-- `Queue.append` (lines 66-78) for a queue constructed with `max=maxLen`
(the `main.py` queue is `Queue(max=10)`, so `self.max is not None` always
holds there). `neededLen = self.max - 1`; if the current length exceeds it,
evict from the head until the length is at most `neededLen`, then append the
new element at the tail. -/
def queueAppend {α : Type} (maxLen : Nat) (q : List α) (x : α) : List α :=
  let neededLen := maxLen - 1
  let q2 := if neededLen < q.length then shrinkTo neededLen q else q
  q2 ++ [x]

/-- `avg` (lines 86-90): sum of the elements divided by the length.
`none` models the `ZeroDivisionError` that `sum / float(len(iter))` raises
when the iterable is empty; there is no empty-buffer guard in the source. -/
def avg (l : List ℚ) : Option ℚ :=
  if l.length = 0 then none
  else some ((l.foldl (fun a b => a + b) 0) / (l.length : ℚ))

/-- State of the `AcPower` object (lines 138-147). `powerOffTime` is the
sentinel `-1` until a power-off time is first recorded; `switchValue` is the
digital output `switch.value` (initialized to `acPowerOn` at line 44). -/
structure AcPower where
  coolOffSeconds : ℚ
  powerOffTime : ℚ
  switchValue : Bool
deriving DecidableEq

/-- `AcPower.__init__` (lines 139-147) applied to the module-level `switch`
whose value was set to `acPowerOn` at line 44: `coolOffSeconds = 60`,
`powerOffTime = -1`. -/
def initAcPower : AcPower :=
  { coolOffSeconds := 60, powerOffTime := -1, switchValue := acPowerOn }

/-- `AcPower.isCoolingOff` (lines 150-154): true when
`time.monotonic() - self.powerOffTime < self.coolOffSeconds`, else false.
Note the sentinel `powerOffTime = -1` is not special-cased here. -/
def isCoolingOff (now : ℚ) (p : AcPower) : Bool :=
  if now - p.powerOffTime < p.coolOffSeconds then true else false

/-- `AcPower.turnAcOff` (lines 157-166): record `now` as the power-off time
when `self.switch.value is True or self.powerOffTime == -1`, then set the
switch to `acPowerOff`. (The Python method also returns the recorded time;
callers only print it, so the model returns the updated state.) -/
def turnAcOff (now : ℚ) (p : AcPower) : AcPower :=
  { p with
    powerOffTime :=
      if p.switchValue = true ∨ p.powerOffTime = -1 then now else p.powerOffTime
    switchValue := acPowerOff }

/-- `AcPower.turnAcOn` (lines 168-170): set the switch to `acPowerOn` unless
currently cooling off. -/
def turnAcOn (now : ℚ) (p : AcPower) : AcPower :=
  if !(isCoolingOff now p) then { p with switchValue := acPowerOn } else p

/-- State of the `State` object (lines 173-178): the current tier tag (one of
the strings assigned by `applyInputs`, initially `"normal"`) and the three
thresholds fixed at construction. -/
structure State where
  state : String
  infoThreshold : ℚ
  noticeThreshold : ℚ
  warningThreshold : ℚ
deriving DecidableEq

/-- `State(infoThresholdVolts, noticeThresholdVolts, warnThresholdVolts)`
as constructed at line 253. -/
def initState : State :=
  { state := "normal"
    infoThreshold := infoThresholdVolts
    noticeThreshold := noticeThresholdVolts
    warningThreshold := warnThresholdVolts }

/-- One iteration of the per-input `if/elif` chain of `State.applyInputs`
(lines 193-218): the four booleans appended to the `normal`, `info`,
`notice`, `warning` lists for one input. `none` models an input matching no
branch (which appends nothing to any list); the chain is in fact total, as
`classifyFlags_eq` proves. -/
def classifyFlags (s : State) (x : ℚ) : Option (Bool × Bool × Bool × Bool) :=
  if x < s.infoThreshold then some (true, false, false, false)
  else if s.infoThreshold ≤ x ∧ x < s.noticeThreshold then
    some (false, true, false, false)
  else if s.noticeThreshold ≤ x ∧ x < s.warningThreshold then
    some (false, false, true, false)
  else if s.warningThreshold ≤ x then some (false, false, false, true)
  else none

/-- `reduceAnd` (lines 221-229): `None` for an empty list, else the
conjunction of the booleans, folded left starting from `True`. -/
def reduceAnd (results : List Bool) : Option Bool :=
  if results.length < 1 then none
  else some (results.foldl (fun a b => a && b) true)

/-- Python truthiness of `reduceAnd`'s result as used in the conditions at
lines 232-241: `None` is falsy, a boolean is itself. -/
def truthy (o : Option Bool) : Bool := o.getD false

/-- `State.applyInputs` (lines 183-242): early return on zero inputs; build
the four per-tier boolean lists; adopt the first tier (in the order normal,
info, notice, warning) whose `reduceAnd` is truthy, else leave the state
unchanged. -/
def applyInputs (s : State) (inputs : List ℚ) : State :=
  if inputs.length < 1 then s
  else
    let fl := inputs.filterMap (classifyFlags s)
    let normal := fl.map (fun t => t.1)
    let info := fl.map (fun t => t.2.1)
    let notice := fl.map (fun t => t.2.2.1)
    let warning := fl.map (fun t => t.2.2.2)
    if truthy (reduceAnd normal) then { s with state := "normal" }
    else if truthy (reduceAnd info) then { s with state := "info" }
    else if truthy (reduceAnd notice) then { s with state := "notice" }
    else if truthy (reduceAnd warning) then { s with state := "warning" }
    else s

/-- Index (0 = normal, 1 = info, 2 = notice, 3 = warning) of the branch of
the `applyInputs` classification chain that an input falls into; proved equal
to the chain in `classifyFlags_eq`. -/
def bucketOf (s : State) (x : ℚ) : Nat :=
  if x < s.infoThreshold then 0
  else if x < s.noticeThreshold then 1
  else if x < s.warningThreshold then 2
  else 3

/-- Modelled from the spec (section 4.2): the tier whose half-open range
contains the value — Normal: `value < infoThreshold`; Info:
`infoThreshold ≤ value < noticeThreshold`; Notice:
`noticeThreshold ≤ value < warningThreshold`; Warning:
`value ≥ warningThreshold`. Used only as the spec-side reference for the
refinement claims about full-agreement classification. -/
def specTier (info notice warn x : ℚ) : String :=
  if x < info then "normal"
  else if info ≤ x ∧ x < notice then "info"
  else if notice ≤ x ∧ x < warn then "notice"
  else "warning"

/-- The module-level mutable state of the main loop (lines 247-253):
`recentLevels = Queue(max=10)`, `acPower = AcPower(switch)`,
`state = State(...)`. -/
structure LoopState where
  recentLevels : List ℚ
  classifier : State
  power : AcPower
deriving DecidableEq

/-- Initial main-loop state (lines 247-253). -/
def initLoop : LoopState := { recentLevels := [], classifier := initState, power := initAcPower }

/-- One iteration of the main loop (lines 255-318), with the sensor reading
and the monotonic clock as inputs and all LED/piezo/print output dropped:
append the reading to `recentLevels`, compute the average (`none` if `avg`
raises), apply the inputs `(reading, average)` to the classifier, and
dispatch on the resulting state string: normal/info/notice call
`acPower.turnAcOn()`, warning calls `acPower.turnAcOff()`, and the final
`else` branch (blue LED) performs no power action. -/
def mainTick (ls : LoopState) (reading now : ℚ) : Option LoopState :=
  let recent := queueAppend 10 ls.recentLevels reading
  match avg recent with
  | none => none
  | some a =>
    let st := applyInputs ls.classifier [reading, a]
    let pw :=
      if st.state = "normal" then turnAcOn now ls.power
      else if st.state = "info" then turnAcOn now ls.power
      else if st.state = "notice" then turnAcOn now ls.power
      else if st.state = "warning" then turnAcOff now ls.power
      else ls.power
    some { recentLevels := recent, classifier := st, power := pw }

/-- Run `mainTick` over a list of readings (clock frozen at 0, which is
irrelevant to the classifier) and collect the classifier state string after
each tick; `none` if any tick raises. -/
def runTicks (ls : LoopState) : List ℚ → Option (List String)
  | [] => some []
  | r :: rs =>
    (mainTick ls r 0).bind fun ls2 =>
      (runTicks ls2 rs).map fun tl => ls2.classifier.state :: tl

/-- Which branch of the main loop's dispatch on `state.getState()`
(lines 268-318) runs: 0 = normal, 1 = info, 2 = notice, 3 = warning,
4 = the final `else` (blue LED) branch. -/
def dispatchBranch (st : String) : Nat :=
  if st = "normal" then 0
  else if st = "info" then 1
  else if st = "notice" then 2
  else if st = "warning" then 3
  else 4

/-- Classifier states reachable in the program: the initial `State` object of
line 253 and anything `applyInputs` produces from a reachable state. -/
inductive ReachableState : State → Prop
  | init : ReachableState initState
  | step (s : State) (inputs : List ℚ) :
      ReachableState s → ReachableState (applyInputs s inputs)

/-! ### Helper lemmas about the classifier -/

/-- The per-input `if/elif` chain of `applyInputs` is total, and the four
booleans it appends are exactly the indicator of `bucketOf`. -/
theorem classifyFlags_eq (s : State) (x : ℚ) :
    classifyFlags s x =
      some (decide (bucketOf s x = 0), decide (bucketOf s x = 1),
        decide (bucketOf s x = 2), decide (bucketOf s x = 3)) := by
  unfold classifyFlags bucketOf
  split_ifs with h1 h2 h3 h4 <;> simp_all

/-- Pushing `classifyFlags` through `filterMap`: since the chain is total,
the list of flag tuples is a `map`. -/
theorem filterMap_classifyFlags (s : State) (inputs : List ℚ) :
    inputs.filterMap (classifyFlags s) =
      inputs.map (fun x =>
        (decide (bucketOf s x = 0), decide (bucketOf s x = 1),
          decide (bucketOf s x = 2), decide (bucketOf s x = 3))) := by
  induction inputs with
  | nil => rfl
  | cons y ys ih => simp [List.filterMap_cons, classifyFlags_eq, ih]

/-- Left fold of boolean conjunction equals `all`. -/
theorem foldl_and_eq (l : List Bool) :
    ∀ b : Bool, l.foldl (fun a c => a && c) b = (b && l.all id) := by
  induction l with
  | nil => intro b; simp
  | cons x xs ih => intro b; simp [List.foldl_cons, ih, Bool.and_assoc]

/-- Python truthiness of `reduceAnd`: false on the empty list (where
`reduceAnd` returns `None`), otherwise the conjunction of the list. -/
theorem truthy_reduceAnd (l : List Bool) :
    truthy (reduceAnd l) = (!l.isEmpty && l.all id) := by
  cases l with
  | nil => rfl
  | cons x xs => simp [truthy, reduceAnd, foldl_and_eq]

/-- Characterization of `applyInputs` on a nonempty input list: adopt the
first bucket (normal, info, notice, warning) that every input falls into,
else keep the state unchanged. -/
theorem applyInputs_eq (s : State) (inputs : List ℚ) (h : inputs ≠ []) :
    applyInputs s inputs =
      if inputs.all (fun x => decide (bucketOf s x = 0)) then { s with state := "normal" }
      else if inputs.all (fun x => decide (bucketOf s x = 1)) then { s with state := "info" }
      else if inputs.all (fun x => decide (bucketOf s x = 2)) then { s with state := "notice" }
      else if inputs.all (fun x => decide (bucketOf s x = 3)) then { s with state := "warning" }
      else s := by
  unfold applyInputs
  have hlen : ¬ inputs.length < 1 := by
    simpa [Nat.lt_one_iff, List.length_eq_zero] using h
  rw [if_neg hlen]
  simp only [filterMap_classifyFlags, List.map_map, truthy_reduceAnd, List.all_map,
    List.isEmpty_eq_true, List.map_eq_nil_iff]
  simp [h, Function.comp]

/-! ### Helper lemmas about the queue -/

/-- The eviction loop drops from the head until at most `needed` elements
remain. -/
theorem shrinkTo_eq_drop {α : Type} (needed : Nat) (q : List α) :
    shrinkTo needed q = q.drop (q.length - needed) := by
  induction q with
  | nil => simp [shrinkTo]
  | cons x xs ih =>
    by_cases h : (x :: xs).length ≤ needed
    · rw [shrinkTo, if_pos h, Nat.sub_eq_zero_of_le h, List.drop_zero]
    · rw [shrinkTo, if_neg h, ih]
      have hx : xs.length + 1 - needed = (xs.length - needed) + 1 := by
        simp only [List.length_cons, not_le] at h
        omega
      simp only [List.length_cons, hx, List.drop_succ_cons]

/-- One `Queue.append` on a queue within capacity keeps the last `N`
elements of the extended sequence. -/
theorem queueAppend_eq_drop {α : Type} (N : Nat) (hN : 1 ≤ N) (q : List α) (x : α)
    (hq : q.length ≤ N) :
    queueAppend N q x = (q ++ [x]).drop (q.length + 1 - N) := by
  simp only [queueAppend]
  by_cases h : N - 1 < q.length
  · have hqN : q.length = N := by omega
    rw [if_pos h, shrinkTo_eq_drop]
    rw [List.drop_append_of_le_length (by omega)]
    have hidx : q.length - (N - 1) = q.length + 1 - N := by omega
    rw [hidx]
  · rw [if_neg h]
    have h0 : q.length + 1 - N = 0 := by omega
    rw [h0, List.drop_zero]

/-- Folding `Queue.append` over a list of new elements, starting from a
queue within capacity, keeps the last `N` elements of the whole sequence. -/
theorem foldl_queueAppend_eq_drop {α : Type} (N : Nat) (hN : 1 ≤ N) (xs : List α) :
    ∀ q : List α, q.length ≤ N →
      xs.foldl (queueAppend N) q = (q ++ xs).drop ((q ++ xs).length - N) := by
  induction xs with
  | nil =>
    intro q hq
    simp [Nat.sub_eq_zero_of_le hq]
  | cons x rest ih =>
    intro q hq
    have hstep := queueAppend_eq_drop N hN q x hq
    have hlen : (queueAppend N q x).length ≤ N := by
      rw [hstep, List.length_drop, List.length_append]
      simp only [List.length_singleton]
      omega
    rw [List.foldl_cons, ih (queueAppend N q x) hlen, hstep]
    have h1 : (q ++ [x]).drop (q.length + 1 - N) ++ rest
        = ((q ++ [x]) ++ rest).drop (q.length + 1 - N) :=
      (List.drop_append_of_le_length (by simp)).symm
    rw [h1, List.drop_drop, List.append_assoc, List.singleton_append]
    congr 1
    simp only [List.length_drop, List.length_append, List.length_cons,
      List.length_singleton]
    omega

/-! ### Claim theorems -/

/-- C1: evidence for the code bug. The claim says a second consecutive
`turnOff` while the switch is already off preserves the off-timestamp from
the first call. In the code, `acPowerOn = False`, so `switch.value is True`
holds exactly when the switch is already OFF; the condition at line 160
therefore re-records the timestamp on every repeated `turnAcOff`: after
`turnAcOff` at t=0 (first de-energize, timestamp 0, switch off), a second
`turnAcOff` at t=5 overwrites the timestamp with 5 ≠ 0, contradicting both
the claim and the source comment at lines 158-159. -/
theorem c1_turnAcOff_reRecords_timestamp :
    (turnAcOff 0 initAcPower).switchValue = acPowerOff ∧
    (turnAcOff 0 initAcPower).powerOffTime = 0 ∧
    (turnAcOff 5 (turnAcOff 0 initAcPower)).powerOffTime = 5 ∧
    (5 : ℚ) ≠ 0 := by
  norm_num [turnAcOff, initAcPower, acPowerOn, acPowerOff]

/-- C2 counterexample: the claim says that whenever `turnOff` has never been
called, `isCoolingOff` returns false. In the initial state the sentinel
`powerOffTime = -1` records that `turnOff` has never been called, yet at
monotonic time 0 the code computes `0 - (-1) = 1 < 60` and returns true. -/
theorem c2_isCoolingOff_true_before_any_turnOff :
    initAcPower.powerOffTime = -1 ∧ isCoolingOff 0 initAcPower = true := by
  norm_num [isCoolingOff, initAcPower]

/-- C2 amended: `isCoolingOff` returns true iff `now - powerOffTime <
coolOffSeconds`, where `powerOffTime` is the sentinel `-1` until `turnOff`
first records a time; consequently, before any `turnOff`, it returns true
exactly when `now < coolOffSeconds - 1` (the first 59 seconds after boot),
not always false. -/
theorem c2_isCoolingOff_iff :
    (∀ (now : ℚ) (p : AcPower),
      isCoolingOff now p = true ↔ now - p.powerOffTime < p.coolOffSeconds) ∧
    (∀ now : ℚ,
      isCoolingOff now initAcPower = true ↔ now < initAcPower.coolOffSeconds - 1) := by
  constructor
  · intro now p
    unfold isCoolingOff
    split_ifs with h <;> simp [h]
  · intro now
    simp only [isCoolingOff, initAcPower]
    split_ifs with h <;> constructor <;> intro h2 <;> first | linarith | rfl | simp_all

/-- C4: evidence for the code bug. The spec's fixed contract says an empty
buffer is rejected with `EmptyBufferError` and that `ControlCycle`
substitutes the instantaneous reading when the buffer is empty; the code's
`avg` has no guard and raises `ZeroDivisionError` (modelled as `none`) on an
empty iterable, and the main loop contains no substitution — the crash is
merely unreachable there because the reading is appended before `avg` is
called, so the averaged list always has positive length. -/
theorem c4_avg_empty_raises :
    avg [] = none ∧ ∀ (q : List ℚ) (r : ℚ), 0 < (queueAppend 10 q r).length := by
  constructor
  · rfl
  · intro q r
    simp [queueAppend]

/-- C8: with `coolOffSeconds = 60`, after `turnOff` at monotonic time 0 a
`turnOn` at time 30 is a silent no-op leaving the switch at the off value
(the whole state is unchanged, so no error is signalled), while a `turnOn`
at time 61 sets the switch to the on value. -/
theorem c8_coolOff_window :
    (turnAcOn 30 (turnAcOff 0 initAcPower)).switchValue = acPowerOff ∧
    turnAcOn 30 (turnAcOff 0 initAcPower) = turnAcOff 0 initAcPower ∧
    (turnAcOn 61 (turnAcOff 0 initAcPower)).switchValue = acPowerOn := by
  norm_num [turnAcOn, turnAcOff, isCoolingOff, initAcPower, acPowerOn, acPowerOff]

/-- C5: if two supplied inputs fall into different branches of the
classification chain (so the inputs do not all share one tier range), then
`applyInputs` returns the state unchanged — for every prior tier and
threshold configuration; and with zero inputs the call is a no-op. -/
theorem c5_disagreement_noop :
    (∀ (s : State) (inputs : List ℚ) (x y : ℚ),
      x ∈ inputs → y ∈ inputs → bucketOf s x ≠ bucketOf s y →
      applyInputs s inputs = s) ∧
    (∀ s : State, applyInputs s [] = s) := by
  constructor
  · intro s inputs x y hx hy hne
    have hinputs : inputs ≠ [] := by
      rintro rfl
      exact List.not_mem_nil x hx
    rw [applyInputs_eq s inputs hinputs]
    have hall : ∀ b : Nat, ¬ (inputs.all (fun z => decide (bucketOf s z = b)) = true) := by
      intro b hb
      rw [List.all_eq_true] at hb
      have hxb := hb x hx
      have hyb := hb y hy
      simp only [decide_eq_true_eq] at hxb hyb
      exact hne (hxb.trans hyb.symm)
    rw [if_neg (hall 0), if_neg (hall 1), if_neg (hall 2), if_neg (hall 3)]
  · intro s
    rfl

/-- C5 witness: with thresholds 2.00 / 2.12 / 2.20 and prior tier "notice",
the disagreeing pair (2.25, 2.15) — Warning range vs Notice range — leaves
the state unchanged, and zero inputs are a no-op on the initial state. -/
theorem c5_disagreement_noop_witness :
    applyInputs (State.mk "notice" 2 (53/25) (11/5)) [9/4, 43/20]
      = State.mk "notice" 2 (53/25) (11/5) ∧
    applyInputs initState [] = initState := by
  constructor
  · exact c5_disagreement_noop.1 _ [9/4, 43/20] (9/4) (43/20) (by simp) (by simp)
      (by norm_num [bucketOf])
  · exact c5_disagreement_noop.2 initState

/-- Helper for the full-agreement claims: on the duplicated input `[x, x]`,
`applyInputs` adopts exactly the tier of the half-open range containing
`x`, as described by the spec-side `specTier`. -/
theorem applyInputs_pair (s : State) (x : ℚ) :
    (applyInputs s [x, x]).state
      = specTier s.infoThreshold s.noticeThreshold s.warningThreshold x := by
  rw [applyInputs_eq s [x, x] (by simp)]
  simp only [List.all_cons, List.all_nil, Bool.and_true, Bool.and_self, decide_eq_true_eq]
  unfold specTier bucketOf
  split_ifs <;> simp_all

/-- C6: for every prior state and every value `x`, `applyInputs(x, x)` sets
the stored tier to the tier of the half-open range containing `x`
(`specTier`); with the configured thresholds 2.00 / 2.12 / 2.20 the readings
1.50, 2.05, 2.15, 2.25 yield normal, info, notice, warning respectively. -/
theorem c6_pair_adopts_tier :
    (∀ (s : State) (x : ℚ),
      (applyInputs s [x, x]).state
        = specTier s.infoThreshold s.noticeThreshold s.warningThreshold x) ∧
    (applyInputs initState [1.50, 1.50]).state = "normal" ∧
    (applyInputs initState [2.05, 2.05]).state = "info" ∧
    (applyInputs initState [2.15, 2.15]).state = "notice" ∧
    (applyInputs initState [2.25, 2.25]).state = "warning" := by
  refine ⟨applyInputs_pair, ?_, ?_, ?_, ?_⟩ <;>
    norm_num [applyInputs, initState, classifyFlags, reduceAnd, truthy,
      List.filterMap_cons, List.filterMap_nil, List.cons_ne_nil,
      infoThresholdVolts, noticeThresholdVolts, warnThresholdVolts]

/-- C7: for every capacity `N ≥ 1`, appending `M > N` readings one at a
time to an initially empty queue leaves exactly the last `N` readings in
their original order (a suffix of the input sequence, evictions having come
from the head), the final length is exactly `N`, and the length never
exceeds `N` at any intermediate point. -/
theorem c7_queue_keeps_last_n (N : Nat) (xs : List ℚ) (h1 : 1 ≤ N)
    (h2 : N < xs.length) :
    xs.foldl (queueAppend N) [] = xs.drop (xs.length - N) ∧
    (xs.foldl (queueAppend N) []).length = N ∧
    ∀ k : Nat, ((xs.take k).foldl (queueAppend N) []).length ≤ N := by
  have hmain := foldl_queueAppend_eq_drop N h1 xs [] (by simp)
  simp only [List.nil_append] at hmain
  refine ⟨hmain, ?_, ?_⟩
  · rw [hmain, List.length_drop]
    omega
  · intro k
    have hk := foldl_queueAppend_eq_drop N h1 (xs.take k) [] (by simp)
    simp only [List.nil_append] at hk
    rw [hk, List.length_drop]
    omega

/-- C7 witness: capacity 2, three appended readings — the queue ends as the
last two readings in order. -/
theorem c7_queue_keeps_last_n_witness :
    [(1 : ℚ), 2, 3].foldl (queueAppend 2) [] = [(2 : ℚ), 3] := by
  have h := c7_queue_keeps_last_n 2 [(1 : ℚ), 2, 3] (by norm_num) (by norm_num)
  rw [h.1]
  rfl

/-- C3 counterexample: the claim predicts tier Warning on the fourth tick of
the run [1.5, 1.5, 2.25, 2.25]. In the code the fourth tick's average is
(1.5 + 1.5 + 2.25 + 2.25) / 4 = 1.875, still below the info threshold 2.00,
so the inputs (2.25, 1.875) disagree and the tier stays "normal". -/
theorem c3_fourth_tick_not_warning :
    ((runTicks initLoop [(1.5 : ℚ), 1.5, 2.25, 2.25]).getD [])[3]? = some "normal" ∧
    ("normal" : String) ≠ "warning" := by
  constructor
  · norm_num [runTicks, mainTick, initLoop, queueAppend, shrinkTo, avg, applyInputs,
      initState, classifyFlags, reduceAnd, truthy, turnAcOn, turnAcOff, isCoolingOff,
      initAcPower, List.filterMap_cons, List.filterMap_nil, List.cons_ne_nil,
      acPowerOn, acPowerOff, infoThresholdVolts, noticeThresholdVolts, warnThresholdVolts]
  · decide

/-- C3 amended: feeding [1.5, 1.5, 2.25, 2.25] one per tick from the initial
state produces the tier sequence [normal, normal, normal, normal]: the
first two ticks classify as Normal, and both the third and the fourth tick
leave the tier unchanged by disagreement, because the running averages
(1.75 and then 1.875) are still below the info threshold while the
instantaneous reading 2.25 is in the Warning range — after four readings
the average has not yet caught up, so no Warning is declared. -/
theorem c3_tier_sequence :
    runTicks initLoop [(1.5 : ℚ), 1.5, 2.25, 2.25]
      = some ["normal", "normal", "normal", "normal"] := by
  norm_num [runTicks, mainTick, initLoop, queueAppend, shrinkTo, avg, applyInputs,
    initState, classifyFlags, reduceAnd, truthy, turnAcOn, turnAcOff, isCoolingOff,
    initAcPower, List.filterMap_cons, List.filterMap_nil, List.cons_ne_nil,
    acPowerOn, acPowerOff, infoThresholdVolts, noticeThresholdVolts, warnThresholdVolts]

/-- C9: `turnAcOff` unconditionally drives the switch to the off value for
every clock value and every power state (the cool-off guard appears only in
`turnAcOn`); and in any main-loop tick whose classification comes out
"warning", the tick invokes `turnAcOff` on the power state, so the tick
ends with the switch at the off value. -/
theorem c9_warning_always_deEnergizes :
    (∀ (now : ℚ) (p : AcPower), (turnAcOff now p).switchValue = acPowerOff) ∧
    (∀ (ls ls2 : LoopState) (reading now : ℚ),
      mainTick ls reading now = some ls2 →
      ls2.classifier.state = "warning" →
      ls2.power = turnAcOff now ls.power ∧ ls2.power.switchValue = acPowerOff) := by
  refine ⟨fun now p => rfl, ?_⟩
  intro ls ls2 reading now h hw
  simp only [mainTick] at h
  cases havg : avg (queueAppend 10 ls.recentLevels reading) with
  | none =>
    rw [havg] at h
    cases h
  | some a =>
    rw [havg] at h
    simp only [Option.some.injEq] at h
    subst h
    simp only at hw
    simp only [hw] at *
    rw [if_neg (by decide), if_neg (by decide), if_neg (by decide)]
    exact ⟨rfl, rfl⟩

/-- C9 witness: from the initial state, a reading of 2.25 classifies as
warning on its first tick (buffer [2.25], average 2.25) and the tick leaves
the switch at the off value. -/
theorem c9_warning_always_deEnergizes_witness :
    ∃ ls2 : LoopState,
      mainTick initLoop (9/4) 0 = some ls2 ∧
      ls2.classifier.state = "warning" ∧
      ls2.power = turnAcOff 0 initLoop.power ∧
      ls2.power.switchValue = acPowerOff := by
  have htick : mainTick initLoop (9/4) 0
      = some (LoopState.mk [9/4] (State.mk "warning" 2 (53/25) (11/5))
          (turnAcOff 0 initAcPower)) := by
    norm_num [mainTick, initLoop, queueAppend, shrinkTo, avg, applyInputs,
      initState, classifyFlags, reduceAnd, truthy, turnAcOn, turnAcOff, isCoolingOff,
      initAcPower, List.filterMap_cons, List.filterMap_nil, List.cons_ne_nil,
      acPowerOn, acPowerOff, infoThresholdVolts, noticeThresholdVolts, warnThresholdVolts]
    rw [if_neg (by decide), if_neg (by decide), if_neg (by decide)]
  refine ⟨_, htick, rfl, ?_⟩
  exact c9_warning_always_deEnergizes.2 initLoop _ (9/4) 0 htick rfl

/-- Helper: `applyInputs` either assigns one of the four tier strings or
leaves the state string unchanged. -/
theorem applyInputs_state_cases (s : State) (inputs : List ℚ) :
    (applyInputs s inputs).state = "normal" ∨ (applyInputs s inputs).state = "info" ∨
    (applyInputs s inputs).state = "notice" ∨ (applyInputs s inputs).state = "warning" ∨
    (applyInputs s inputs).state = s.state := by
  by_cases h : inputs = []
  · subst h
    right; right; right; right
    rfl
  · rw [applyInputs_eq s inputs h]
    split_ifs <;> simp

/-- C10: every reachable classifier state carries one of exactly the four
strings "normal", "info", "notice", "warning" — the initial state is
"normal" and `applyInputs` only ever assigns one of the four — so the main
loop's final `else` (blue LED) dispatch branch never runs on a reachable
state. -/
theorem c10_reachable_state_strings (s : State) (h : ReachableState s) :
    (s.state = "normal" ∨ s.state = "info" ∨ s.state = "notice" ∨ s.state = "warning") ∧
    dispatchBranch s.state ≠ 4 := by
  have hmem : s.state = "normal" ∨ s.state = "info" ∨ s.state = "notice" ∨
      s.state = "warning" := by
    induction h with
    | init => left; rfl
    | step s inputs hs ih =>
      rcases applyInputs_state_cases s inputs with hc | hc | hc | hc | hc <;>
        rw [hc] <;> tauto
  refine ⟨hmem, ?_⟩
  rcases hmem with h1 | h1 | h1 | h1 <;> rw [h1] <;> simp [dispatchBranch]

/-- C10 witness: the initial classifier state. -/
theorem c10_reachable_state_strings_witness :
    (initState.state = "normal" ∨ initState.state = "info" ∨
      initState.state = "notice" ∨ initState.state = "warning") ∧
    dispatchBranch initState.state ≠ 4 :=
  c10_reachable_state_strings initState ReachableState.init

end NoOverflow
